import Mathlib

/-!
Shallow embedding of `src/main.py` (dataset generation with iterative
multi-model judging) and verification of its specification claims.

The backend model APIs are external collaborators: every network call is
modelled by an oracle giving the outcome the Python code would observe
(an exception of one of the caught classes, or a parsed JSON object).
Python JSON objects are modelled by a record of the only fields the code
ever reads; a missing key is `none`.
-/

namespace BTP

/-- A parsed JSON response, restricted to the fields read by `main.py`.
`none` models a missing key. -/
structure ApiData where
  prompts : Option (List String)
  inscriptions : Option (List String)
  approved : Option Bool
  reason : Option String
deriving DecidableEq

/-- Outcome of one raw backend call as seen by `call_api_with_retry`:
either it raises one of the caught exceptions (`ValueError`,
`json.JSONDecodeError`) or it returns parsed data. -/
inductive CallOutcome where
  | exn : CallOutcome
  | ok : ApiData → CallOutcome
deriving DecidableEq

/-- The validation on line 63 of `main.py`:
`"prompts" in data and "inscriptions" in data`. -/
def hasRequiredKeys (d : ApiData) : Bool :=
  d.prompts.isSome && d.inscriptions.isSome

/-- An attempt fails when the call raises or the returned data misses a
required key (the two branches that fall through to the sleep on
lines 66-68). -/
def failsB : CallOutcome → Bool
  | CallOutcome.exn => true
  | CallOutcome.ok d => !hasRequiredKeys d

/-- The sleep performed after a failing attempt (lines 70-71):
`if attempt < retries - 1: time.sleep(delay * (attempt + 1))`.
Returns the list of sleeps the attempt contributes (empty after the
final attempt). `attempt` is 0-indexed as in the Python `range`. -/
def sleepIf (retries delay attempt : Nat) : List Nat :=
  if attempt < retries - 1 then [delay * (attempt + 1)] else []

/-- The `for attempt in range(retries)` loop of `call_api_with_retry`
(lines 60-74). `calls n` is the outcome of the n-th invocation of
`call_func`. Returns (result, number of invocations made, sleeps
performed in order). `remaining` counts the loop iterations left. -/
def retryAux (calls : Nat → CallOutcome) (retries delay : Nat) :
    Nat → List Nat → Nat → Option ApiData × Nat × List Nat
  | attempt, sleeps, 0 => (none, attempt, sleeps)
  | attempt, sleeps, remaining + 1 =>
    match calls attempt with
    | CallOutcome.ok d =>
      if hasRequiredKeys d then (some d, attempt + 1, sleeps)
      else retryAux calls retries delay (attempt + 1) (sleeps ++ sleepIf retries delay attempt) remaining
    | CallOutcome.exn =>
      retryAux calls retries delay (attempt + 1) (sleeps ++ sleepIf retries delay attempt) remaining

/-- `call_api_with_retry(call_func, retries, delay)` (lines 58-74).
The defaults at the call sites in `main.py` are `retries = 3`,
`delay = 5`. -/
def call_api_with_retry (calls : Nat → CallOutcome) (retries delay : Nat) :
    Option ApiData × Nat × List Nat :=
  retryAux calls retries delay 0 [] retries

/-- The exact sleeps produced when every remaining attempt fails. -/
def expectedSleeps (retries delay : Nat) : Nat → Nat → List Nat
  | _, 0 => []
  | attempt, r + 1 =>
    sleepIf retries delay attempt ++ expectedSleeps retries delay (attempt + 1) r

lemma retryAux_step_fail (calls : Nat → CallOutcome) (retries delay attempt r : Nat)
    (sleeps : List Nat) (h : failsB (calls attempt) = true) :
    retryAux calls retries delay attempt sleeps (r + 1) =
      retryAux calls retries delay (attempt + 1) (sleeps ++ sleepIf retries delay attempt) r := by
  cases hc : calls attempt with
  | exn => simp [retryAux, hc]
  | ok d =>
    have hk : hasRequiredKeys d = false := by
      simpa [failsB, hc] using h
    simp [retryAux, hc, hk]

lemma retryAux_success (calls : Nat → CallOutcome) (retries delay : Nat) :
    ∀ (k attempt r : Nat) (sleeps : List Nat) (d : ApiData), k < r →
      (∀ i, i < k → failsB (calls (attempt + i)) = true) →
      calls (attempt + k) = CallOutcome.ok d → hasRequiredKeys d = true →
      ∃ sl, retryAux calls retries delay attempt sleeps r = (some d, attempt + k + 1, sl) := by
  intro k
  induction k with
  | zero =>
    intro attempt r sleeps d hr _ hcall hkeys
    obtain ⟨r', rfl⟩ : ∃ r', r = r' + 1 := ⟨r - 1, by omega⟩
    refine ⟨sleeps, ?_⟩
    simp only [Nat.add_zero] at hcall
    simp [retryAux, hcall, hkeys]
  | succ k ih =>
    intro attempt r sleeps d hr hfail hcall hkeys
    obtain ⟨r', rfl⟩ : ∃ r', r = r' + 1 := ⟨r - 1, by omega⟩
    have h0 : failsB (calls attempt) = true := by
      have := hfail 0 (Nat.succ_pos k)
      simpa using this
    rw [retryAux_step_fail calls retries delay attempt r' sleeps h0]
    have hfail' : ∀ i, i < k → failsB (calls (attempt + 1 + i)) = true := by
      intro i hi
      have := hfail (i + 1) (by omega)
      have harith : attempt + (i + 1) = attempt + 1 + i := by omega
      rwa [harith] at this
    have hcall' : calls (attempt + 1 + k) = CallOutcome.ok d := by
      have harith : attempt + (k + 1) = attempt + 1 + k := by omega
      rwa [harith] at hcall
    obtain ⟨sl, hsl⟩ := ih (attempt + 1) r' (sleeps ++ sleepIf retries delay attempt) d
      (by omega) hfail' hcall' hkeys
    refine ⟨sl, ?_⟩
    rw [hsl]
    congr 2
    omega

lemma retryAux_all_fail (calls : Nat → CallOutcome) (retries delay : Nat)
    (h : ∀ i, failsB (calls i) = true) :
    ∀ (r attempt : Nat) (sleeps : List Nat),
      retryAux calls retries delay attempt sleeps r =
        (none, attempt + r, sleeps ++ expectedSleeps retries delay attempt r) := by
  intro r
  induction r with
  | zero => intro attempt sleeps; simp [retryAux, expectedSleeps]
  | succ r ih =>
    intro attempt sleeps
    rw [retryAux_step_fail calls retries delay attempt r sleeps (h attempt)]
    rw [ih (attempt + 1) (sleeps ++ sleepIf retries delay attempt)]
    simp only [Prod.mk.injEq]
    refine ⟨trivial, by omega, ?_⟩
    have hstep : expectedSleeps retries delay attempt (r + 1) =
        sleepIf retries delay attempt ++ expectedSleeps retries delay (attempt + 1) r := rfl
    rw [hstep, List.append_assoc]

lemma expectedSleeps_eq (retries delay : Nat) :
    ∀ (r attempt : Nat), attempt + r = retries →
      expectedSleeps retries delay attempt r =
        (List.range (r - 1)).map (fun i => delay * (attempt + i + 1)) := by
  intro r
  induction r with
  | zero => intro attempt _; simp [expectedSleeps]
  | succ r ih =>
    intro attempt hsum
    cases r with
    | zero =>
      have hlt : ¬ attempt < retries - 1 := by omega
      simp [expectedSleeps, sleepIf, hlt]
    | succ r' =>
      have hlt : attempt < retries - 1 := by omega
      have ihr := ih (attempt + 1) (by omega)
      have hstep : expectedSleeps retries delay attempt (r' + 1 + 1) =
          sleepIf retries delay attempt ++ expectedSleeps retries delay (attempt + 1) (r' + 1) := rfl
      rw [hstep, ihr, sleepIf, if_pos hlt]
      simp only [Nat.add_sub_cancel]
      rw [List.range_succ_eq_map, List.map_cons, List.map_map, List.singleton_append]
      congr 1
      apply List.map_congr_left
      intro i _
      simp only [Function.comp_apply]
      congr 1
      omega

lemma retry_some_keys (calls : Nat → CallOutcome) (retries delay : Nat) :
    ∀ (r attempt : Nat) (sleeps : List Nat) (d : ApiData),
      (retryAux calls retries delay attempt sleeps r).1 = some d →
      hasRequiredKeys d = true := by
  intro r
  induction r with
  | zero => intro attempt sleeps d h; simp [retryAux] at h
  | succ r ih =>
    intro attempt sleeps d h
    cases hc : calls attempt with
    | exn =>
      rw [retryAux_step_fail calls retries delay attempt r sleeps (by simp [failsB, hc])] at h
      exact ih _ _ _ h
    | ok e =>
      by_cases hk : hasRequiredKeys e = true
      · simp [retryAux, hc, hk] at h
        rw [← h]
        exact hk
      · rw [retryAux_step_fail calls retries delay attempt r sleeps
          (by simp [failsB, hc]; simpa using hk)] at h
        exact ih _ _ _ h

/-- A Python runtime error raised by an embedded code path. -/
inductive PyError where
  | keyError : PyError
  | typeError : PyError
  | nameError : PyError
deriving DecidableEq

/-- Result of running a piece of Python code: a value, or a raised
runtime error. -/
inductive PyResult (α : Type) where
  | ok : α → PyResult α
  | raised : PyError → PyResult α
deriving DecidableEq

/-- A prompts/inscriptions pair, the decoded content of the
`previous_output` JSON string carried through the judge loop. -/
abbrev Batch := List String × List String

/-- State of the judge loop in `iterative_generate_prompts`:
the Python loop variable `iteration`, `current_judge_idx`, the decoded
`previous_output`, and the `judged_data` variable (`none` = not yet
assigned, `some none` = assigned `None` by a failed judge call). -/
structure JState where
  iteration : Nat
  idx : Nat
  prev : Batch
  lastJudged : Option (Option ApiData)
deriving DecidableEq

/-- `"approved" in judged_data and judged_data["approved"]` (line 184). -/
def approvedTruthy (d : ApiData) : Bool := d.approved.getD false

/-- The `for iteration in range(max_iter)` loop of
`iterative_generate_prompts` (lines 176-201), including the fallback
after the loop (lines 198-201). `jres i` is the value of
`judges[current_judge_idx](judge_prompt)` at iteration `i` (the output
of the retry wrapper). Returns the Python result — the returned
`(prompts, inscriptions)` tuple, with `Option.none` standing for the
`(None, None)` return, or a raised error — paired with the number of
judge invocations made. -/
def judgeLoopAux (jres : Nat → Option ApiData) :
    Nat → JState → PyResult (Option Batch) × Nat
  | 0, s =>
    -- lines 198-201: `if "prompts" in judged_data and "inscriptions" in
    -- judged_data: return ...; return None, None`. `judged_data` may be
    -- unassigned (NameError when max_iter == 0) or None (TypeError:
    -- `in` applied to None).
    (match s.lastJudged with
     | none => PyResult.raised PyError.nameError
     | some none => PyResult.raised PyError.typeError
     | some (some d) =>
       match d.prompts, d.inscriptions with
       | some p, some i => PyResult.ok (some (p, i))
       | _, _ => PyResult.ok none, 0)
  | remaining + 1, s =>
    match jres s.iteration with
    | none =>
      -- lines 179-182: judge failed; advance rotation, keep prev.
      let r := judgeLoopAux jres remaining
        ⟨s.iteration + 1, (s.idx + 1) % 3, s.prev, some none⟩
      (r.1, r.2 + 1)
    | some d =>
      if approvedTruthy d then
        -- lines 184-186: unguarded judged_data["prompts"] accesses.
        (match d.prompts with
         | none => PyResult.raised PyError.keyError
         | some p =>
           match d.inscriptions with
           | none => PyResult.raised PyError.keyError
           | some i => PyResult.ok (some (p, i)), 1)
      else
        -- lines 188-196: record the corrected version, advance rotation.
        match d.prompts with
        | none => (PyResult.raised PyError.keyError, 1)
        | some p =>
          match d.inscriptions with
          | none => (PyResult.raised PyError.keyError, 1)
          | some i =>
            let r := judgeLoopAux jres remaining
              ⟨s.iteration + 1, (s.idx + 1) % 3, (p, i), some (some d)⟩
            (r.1, r.2 + 1)

/-- `iterative_generate_prompts(meta_prompt, max_iter)` (lines 164-201).
`initCalls` gives the raw outcomes seen by `generate_with_gemini`'s
retry loop for the initial generation; `judgeCalls i` gives the raw
outcomes seen by the retry loop inside the judge invocation of
iteration `i`. A `some` result of the retry wrapper always carries both
required keys, hence is a non-empty dict and truthy, so the
`if not initial_data` test (line 168) is a test for `None`. -/
def iterative_generate_prompts (initCalls : Nat → CallOutcome)
    (judgeCalls : Nat → Nat → CallOutcome) (maxIter : Nat) :
    PyResult (Option Batch) × Nat :=
  match (call_api_with_retry initCalls 3 5).1 with
  | none => (PyResult.ok none, 0)
  | some d0 =>
    judgeLoopAux (fun i => (call_api_with_retry (judgeCalls i) 3 5).1) maxIter
      ⟨0, 0, (d0.prompts.getD [], d0.inscriptions.getD []), none⟩

/-- Tests whether a pipeline run raised `KeyError`. -/
def isKeyError : PyResult (Option Batch) → Bool
  | PyResult.raised PyError.keyError => true
  | _ => false

/-! Configuration constants (lines 35-55 of `main.py`). -/

def LANGUAGES : List String :=
  ["English", "Mandarin Chinese", "Hindi", "Spanish", "French",
   "Hinglish", "Spanglish", "Franglais"]

def TEXT_LENGTHS : List (String × String) :=
  [("Microcopy/Label", "1-2 words"), ("Headline/Title", "3-6 words"),
   ("Tagline/CTA", "7-12 words"), ("Short Caption/Quote", "13-25 words")]

def TEXT_QUANTITIES : List Nat := [1, 2, 3, 4, 5]

def SCENARIOS : List String :=
  ["Signboards & Billboards", "Shop Signage & Display", "Full-Scene Messages",
   "Documents & Print Media", "Digital Screens", "Product Packaging",
   "Public Spaces", "Official Documents", "Creative/Artistic"]

def TEXT_VARIATIONS : List String :=
  ["Correct Spelling", "Misspelled", "Gibberish/Non-words",
   "Special Characters & Numbers", "Case Variations", "Rare/Long Words"]

def BACKGROUNDS : List String := ["Complex Background", "Isolated/Clear Background"]

def LAYOUTS : List String := ["Uniform Font and Style", "Multiple Fonts/Styles"]

def NUM_PROMPTS_PER_COMBO : Nat := 150

def BATCH_SIZE : Nat := 20

/-- One persisted unit of the per-language JSON files (lines 258-268). -/
structure PromptRecord where
  language : String
  text_length_category : String
  text_quantity : Nat
  scenario : String
  text_variation : String
  background_type : String
  layout_style : String
  prompt_text : List String
  inscriptions : List String
deriving DecidableEq

/-- The 7-tuple `current_combo` (lines 222-226, 235). -/
abbrev Combo := String × String × Nat × String × String × String × String

/-- The key extracted from a loaded record when building
`processed_combos` (lines 222-226). -/
def comboKey (p : PromptRecord) : Combo :=
  (p.language, p.text_length_category, p.text_quantity, p.scenario,
   p.text_variation, p.background_type, p.layout_style)

/-- One element of `itertools.product(TEXT_LENGTHS.items(), ...)`
(lines 229-232): ((length_cat, length_desc), quantity, scenario,
variation, background, layout). -/
abbrev ComboSrc := (String × String) × Nat × String × String × String × String

/-- `itertools.product` in the nesting order of lines 229-232. -/
def combinations : List ComboSrc :=
  TEXT_LENGTHS.flatMap fun lc =>
    TEXT_QUANTITIES.flatMap fun q =>
      SCENARIOS.flatMap fun s =>
        TEXT_VARIATIONS.flatMap fun v =>
          BACKGROUNDS.flatMap fun b =>
            LAYOUTS.map fun l => (lc, q, s, v, b, l)

/-- `current_combo = (lang, length_cat, quantity, ...)` (line 235),
using only the category label of the length pair. -/
def comboOf (lang : String) (c : ComboSrc) : Combo :=
  (lang, c.1.1, c.2.1, c.2.2.1, c.2.2.2.1, c.2.2.2.2.1, c.2.2.2.2.2)

/-- The `(prompts, inscriptions)` tuple returned by one
`iterative_generate_prompts` sub-batch call, as Python objects
(`none` = the Python value `None`). -/
abbrev SubResult := Option (List String) × Option (List String)

/-- Python truthiness of a prompts/inscriptions value: `None` and the
empty list are falsy (line 248 tests `if prompts and inscriptions and ...`). -/
def truthyStrs : Option (List String) → Bool
  | none => false
  | some l => !l.isEmpty

/-- The acceptance test on line 248: truthy results whose lengths both
equal the requested sub-batch size. -/
def subBatchOk (r : SubResult) (n : Nat) : Bool :=
  truthyStrs r.1 && truthyStrs r.2 &&
    ((r.1.getD []).length == n) && ((r.2.getD []).length == n)

/-- Result of the per-combination accumulation loop:
the two parallel lists, the requested size of every sub-batch call
issued, and whether the `break` on line 254 was taken. -/
structure AccResult where
  prompt_texts : List String
  inscr : List String
  sizes : List Nat
  aborted : Bool
deriving DecidableEq

/-- The `while len(prompt_texts_list) < NUM_PROMPTS_PER_COMBO` loop
(lines 244-255). `pipe k` is the pair returned by the k-th
`iterative_generate_prompts` call for this combination. The fuel
argument bounds the number of loop entries; every accepted sub-batch
has size at least 1, so `target + 1` units of fuel are never
exhausted. -/
def accumulateAux (pipe : Nat → SubResult) (target batchSize : Nat) :
    Nat → Nat → List String → List String → List Nat → AccResult
  | 0, _, ps, ins, sizes => ⟨ps, ins, sizes, false⟩
  | fuel + 1, callIdx, ps, ins, sizes =>
    if ps.length < target then
      let n := min batchSize (target - ps.length)
      let r := pipe callIdx
      if subBatchOk r n then
        accumulateAux pipe target batchSize fuel (callIdx + 1)
          (ps ++ r.1.getD []) (ins ++ r.2.getD []) (sizes ++ [n])
      else ⟨ps, ins, sizes ++ [n], true⟩
    else ⟨ps, ins, sizes, false⟩

/-- The accumulation loop started from empty lists. -/
def accumulate (pipe : Nat → SubResult) (target batchSize : Nat) : AccResult :=
  accumulateAux pipe target batchSize (target + 1) 0 [] [] []

/-- The `prompt_object` built on lines 258-268. -/
def mkRecord (key : Combo) (ps ins : List String) : PromptRecord :=
  ⟨key.1, key.2.1, key.2.2.1, key.2.2.2.1, key.2.2.2.2.1,
   key.2.2.2.2.2.1, key.2.2.2.2.2.2, ps, ins⟩

/-- In-memory state while processing one language: the `lang_prompts`
list, the contents of the on-disk file (`none` = absent), and the
number of `iterative_generate_prompts` invocations made so far (each
such invocation makes at least one backend API call). -/
structure LangState where
  lang_prompts : List PromptRecord
  file : Option (List PromptRecord)
  pipelineCalls : Nat
deriving DecidableEq

/-- Processing of one unvisited combination (lines 242-276): accumulate
sub-batches; persist the full record and rewrite the file only when the
accumulated length equals `NUM_PROMPTS_PER_COMBO` (line 257). -/
def processCombo (pipe : Nat → SubResult) (key : Combo) (st : LangState) : LangState :=
  let acc := accumulate pipe NUM_PROMPTS_PER_COMBO BATCH_SIZE
  if acc.prompt_texts.length == NUM_PROMPTS_PER_COMBO then
    let lp := st.lang_prompts ++ [mkRecord key acc.prompt_texts acc.inscr]
    ⟨lp, some lp, st.pipelineCalls + acc.sizes.length⟩
  else
    ⟨st.lang_prompts, st.file, st.pipelineCalls + acc.sizes.length⟩

/-- The `for ... in combinations` loop (lines 234-278): skip combos in
`processed_combos` (lines 237-238), otherwise run the accumulation. -/
def comboFold (pipe : Combo → Nat → SubResult) (processed : List Combo) (lang : String) :
    List ComboSrc → LangState → LangState
  | [], st => st
  | c :: rest, st =>
    if comboOf lang c ∈ processed then comboFold pipe processed lang rest st
    else comboFold pipe processed lang rest (processCombo (pipe (comboOf lang c)) (comboOf lang c) st)

/-- `processed_combos` (lines 222-226), as the list of keys of the
loaded records. -/
def processedCombos (loaded : List PromptRecord) : List Combo :=
  loaded.map comboKey

/-- Processing of one language inside `generate_dataset` (lines
208-278), starting from the records loaded from its file. -/
def runLanguage (pipe : Combo → Nat → SubResult) (lang : String)
    (loaded : List PromptRecord) (file : Option (List PromptRecord)) : LangState :=
  comboFold pipe (processedCombos loaded) lang combinations ⟨loaded, file, 0⟩

/-! Theorems for the claims about `call_api_with_retry`. -/

/-- Claim C3: a call failing on the first `k < maxAttempts` attempts and
succeeding on attempt `k + 1` makes the retry wrapper return that
successful result after `k + 1` invocations; a call failing on every
attempt makes it return `None` after exactly `maxAttempts` invocations,
with `maxAttempts - 1` sleeps of `baseDelay * attemptNumber`
(1-indexed), which are strictly increasing when the base delay is
positive. -/
theorem C3_retry_semantics (calls : Nat → CallOutcome) (retries delay : Nat) :
    (∀ k d, k < retries → (∀ i, i < k → failsB (calls i) = true) →
      calls k = CallOutcome.ok d → hasRequiredKeys d = true →
      ∃ sl, call_api_with_retry calls retries delay = (some d, k + 1, sl)) ∧
    ((∀ i, failsB (calls i) = true) →
      call_api_with_retry calls retries delay =
        (none, retries, (List.range (retries - 1)).map (fun i => delay * (i + 1))) ∧
      ((List.range (retries - 1)).map (fun i => delay * (i + 1))).length = retries - 1 ∧
      (0 < delay →
        List.Pairwise (fun a b => a < b)
          ((List.range (retries - 1)).map (fun i => delay * (i + 1))))) := by
  constructor
  · intro k d hk hfail hcall hkeys
    have h := retryAux_success calls retries delay k 0 retries [] d hk
      (by intro i hi; simpa using hfail i hi) (by simpa using hcall) hkeys
    simpa [call_api_with_retry] using h
  · intro hfail
    refine ⟨?_, by simp, ?_⟩
    · rw [call_api_with_retry, retryAux_all_fail calls retries delay hfail retries 0]
      rw [expectedSleeps_eq retries delay retries 0 (by omega)]
      simp
    · intro hd
      rw [List.pairwise_map]
      refine (List.pairwise_lt_range _).imp ?_
      intro a b hab
      exact mul_lt_mul_of_pos_left (by omega) hd

/-- Witness fixture: a call that always raises. -/
def callsAllFail : Nat → CallOutcome := fun _ => CallOutcome.exn

/-- Witness fixture: a well-formed response. -/
def dGood : ApiData := ⟨some ["x"], some ["y"], none, none⟩

/-- Witness fixture: raises once, then succeeds. -/
def callsOneFail : Nat → CallOutcome :=
  fun n => if n = 0 then CallOutcome.exn else CallOutcome.ok dGood

theorem C3_retry_semantics_witness :
    (∃ sl, call_api_with_retry callsOneFail 3 5 = (some dGood, 2, sl)) ∧
    call_api_with_retry callsAllFail 3 5 =
      (none, 3, (List.range 2).map (fun i => 5 * (i + 1))) := by
  constructor
  · exact (C3_retry_semantics callsOneFail 3 5).1 1 dGood (by decide)
      (by decide) rfl (by decide)
  · exact ((C3_retry_semantics callsAllFail 3 5).2 (fun i => rfl)).1

/-- Witness fixture: both keys present but mismatched lengths. -/
def mmData : ApiData := ⟨some ["a", "b"], some ["c"], none, none⟩

/-- Claim C2 counterexample: a response with both keys present but
mismatched `prompts`/`inscriptions` lengths is accepted by
`call_api_with_retry` on the very first attempt — it is not treated as
a validation failure and the retry policy is not triggered. -/
theorem C2_mismatch_accepted_counterexample :
    call_api_with_retry (fun _ => CallOutcome.ok mmData) 3 5 = (some mmData, 1, []) ∧
    (mmData.prompts.getD []).length = 2 ∧ (mmData.inscriptions.getD []).length = 1 := by
  refine ⟨?_, rfl, rfl⟩
  rfl

/-- Claim C2 (amended): a response missing the `prompts` key or the
`inscriptions` key is rejected and triggers the retry policy — the
wrapper never returns such a response, and after a missing-key first
attempt it retries (sleeping `baseDelay * 1`) and can accept a
well-formed second attempt. Mismatched sequence lengths, however, are
not validated by the retry wrapper. -/
theorem C2_keys_only_validation (calls : Nat → CallOutcome) (retries delay : Nat) :
    (∀ d, (call_api_with_retry calls retries delay).1 = some d → hasRequiredKeys d = true) ∧
    (∀ d e, 2 ≤ retries → calls 0 = CallOutcome.ok d → hasRequiredKeys d = false →
      calls 1 = CallOutcome.ok e → hasRequiredKeys e = true →
      call_api_with_retry calls retries delay = (some e, 2, [delay * 1])) := by
  constructor
  · intro d h
    exact retry_some_keys calls retries delay retries 0 [] d h
  · intro d e hret hc0 hk0 hc1 hk1
    obtain ⟨r, rfl⟩ : ∃ r, retries = r + 2 := ⟨retries - 2, by omega⟩
    have hs : sleepIf (r + 2) delay 0 = [delay * 1] := by
      simp [sleepIf]
    rw [call_api_with_retry,
      retryAux_step_fail calls (r + 2) delay 0 (r + 1) [] (by simp [failsB, hc0, hk0]),
      List.nil_append, hs]
    simp [retryAux, hc1, hk1]

/-- Witness fixture: first response lacks `prompts`, second is well-formed. -/
def noKeysData : ApiData := ⟨none, some ["z"], none, none⟩

/-- Witness fixture: missing-key response then a well-formed one. -/
def callsKeyless : Nat → CallOutcome :=
  fun n => if n = 0 then CallOutcome.ok noKeysData else CallOutcome.ok dGood

theorem C2_keys_only_validation_witness :
    hasRequiredKeys dGood = true ∧
    call_api_with_retry callsKeyless 3 5 = (some dGood, 2, [5 * 1]) := by
  constructor
  · exact (C2_keys_only_validation (fun _ => CallOutcome.ok dGood) 3 5).1 dGood rfl
  · exact (C2_keys_only_validation callsKeyless 3 5).2 noKeysData dGood (by omega)
      rfl (by decide) rfl (by decide)

/-! Theorems for the claims about `iterative_generate_prompts`. -/

/-- Claim C7: when the initial primary generation fails (the retry
wrapper returns `None`), the pipeline returns `(None, None)`
immediately and performs zero judge invocations. -/
theorem C7_initial_failure (initCalls : Nat → CallOutcome)
    (judgeCalls : Nat → Nat → CallOutcome) (maxIter : Nat)
    (h : (call_api_with_retry initCalls 3 5).1 = none) :
    iterative_generate_prompts initCalls judgeCalls maxIter = (PyResult.ok none, 0) := by
  unfold iterative_generate_prompts
  rw [h]

theorem C7_initial_failure_witness :
    iterative_generate_prompts callsAllFail (fun _ _ => CallOutcome.exn) 10 =
      (PyResult.ok none, 0) :=
  C7_initial_failure callsAllFail (fun _ _ => CallOutcome.exn) 10 (by decide)

/-- Claim C8: a judge-loop iteration whose judge call failed (retry
wrapper returned `None`) continues the loop with the judge index
advanced by exactly one modulo the 3-element judge list and with
`previous_output` unchanged, consuming one judge invocation. -/
theorem C8_judge_failure_rotation (jres : Nat → Option ApiData) (s : JState)
    (remaining : Nat) (h : jres s.iteration = none) :
    judgeLoopAux jres (remaining + 1) s =
      ((judgeLoopAux jres remaining ⟨s.iteration + 1, (s.idx + 1) % 3, s.prev, some none⟩).1,
       (judgeLoopAux jres remaining ⟨s.iteration + 1, (s.idx + 1) % 3, s.prev, some none⟩).2 + 1) := by
  simp only [judgeLoopAux, h]

/-- Witness fixture: a judge whose calls always fail. -/
def jresNoneW : Nat → Option ApiData := fun _ => none

/-- Witness fixture: a mid-loop state. -/
def sW : JState := ⟨4, 2, (["p"], ["q"]), some none⟩

theorem C8_judge_failure_rotation_witness :
    judgeLoopAux jresNoneW 3 sW =
      ((judgeLoopAux jresNoneW 2 ⟨sW.iteration + 1, (sW.idx + 1) % 3, sW.prev, some none⟩).1,
       (judgeLoopAux jresNoneW 2 ⟨sW.iteration + 1, (sW.idx + 1) % 3, sW.prev, some none⟩).2 + 1) :=
  C8_judge_failure_rotation jresNoneW sW 2 rfl

lemma judgeLoopAux_no_keyerror (jres : Nat → Option ApiData)
    (hk : ∀ i d, jres i = some d → hasRequiredKeys d = true) :
    ∀ (remaining : Nat) (s : JState),
      isKeyError (judgeLoopAux jres remaining s).1 = false := by
  intro remaining
  induction remaining with
  | zero =>
    intro s
    cases hl : s.lastJudged with
    | none => simp [judgeLoopAux, hl, isKeyError]
    | some o =>
      cases o with
      | none => simp [judgeLoopAux, hl, isKeyError]
      | some d =>
        cases hp : d.prompts with
        | none => simp [judgeLoopAux, hl, hp, isKeyError]
        | some p =>
          cases hi : d.inscriptions with
          | none => simp [judgeLoopAux, hl, hp, hi, isKeyError]
          | some i => simp [judgeLoopAux, hl, hp, hi, isKeyError]
  | succ remaining ih =>
    intro s
    cases hj : jres s.iteration with
    | none =>
      simp only [judgeLoopAux, hj]
      exact ih _
    | some d =>
      have hkeys := hk s.iteration d hj
      simp only [hasRequiredKeys, Bool.and_eq_true, Option.isSome_iff_exists] at hkeys
      obtain ⟨⟨p, hp⟩, ⟨i, hi⟩⟩ := hkeys
      by_cases ha : approvedTruthy d = true
      · simp [judgeLoopAux, hj, ha, hp, hi, isKeyError]
      · simp only [Bool.not_eq_true] at ha
        simp only [judgeLoopAux, hj, ha, hp, hi, Bool.false_eq_true, if_false]
        exact ih _

/-- Claim C10: a non-`None` judge result always carries both required
keys (the retry wrapper only accepts such responses), so the unguarded
`judged_data["prompts"]`/`judged_data["inscriptions"]` accesses in the
approved and correction branches never raise `KeyError` in any run of
`iterative_generate_prompts`. -/
theorem C10_no_keyerror (initCalls : Nat → CallOutcome)
    (judgeCalls : Nat → Nat → CallOutcome) (maxIter : Nat) :
    isKeyError (iterative_generate_prompts initCalls judgeCalls maxIter).1 = false := by
  cases h : (call_api_with_retry initCalls 3 5).1 with
  | none => simp [iterative_generate_prompts, h, isKeyError]
  | some d0 =>
    unfold iterative_generate_prompts
    rw [h]
    exact judgeLoopAux_no_keyerror _
      (fun i d hd => retry_some_keys (judgeCalls i) 3 5 3 0 [] d hd) maxIter _

/-- Witness fixture: a successful initial generation. -/
def dInit : ApiData := ⟨some ["p0"], some ["i0"], none, none⟩

/-- Witness fixture: a not-approved judge verdict with corrections. -/
def dCorr : ApiData := ⟨some ["p1"], some ["i1"], some false, some "needs fixes"⟩

/-- Witness fixture: initial generation succeeds on the first attempt. -/
def initCallsW : Nat → CallOutcome := fun _ => CallOutcome.ok dInit

/-- Witness fixture: every judge call raises on every retry attempt. -/
def judgeCallsAllFail : Nat → Nat → CallOutcome := fun _ _ => CallOutcome.exn

/-- Witness fixture: iteration 0 yields a not-approved correction, all
later judge calls fail. -/
def judgeCallsCorrThenFail : Nat → Nat → CallOutcome :=
  fun iter _ => if iter = 0 then CallOutcome.ok dCorr else CallOutcome.exn

/-- Claim C1 (code bug): when the final loop iteration's judge call
failed, `judged_data` is `None` and the post-loop test
`"prompts" in judged_data` raises `TypeError` — the pipeline neither
returns the last `currentOutput` as a best-effort result (second run:
the iteration-0 correction is discarded) nor returns the graceful
`(None, None)` failure (first run: every judge call failed). -/
theorem C1_budget_exhausted_crash :
    iterative_generate_prompts initCallsW judgeCallsAllFail 10 =
      (PyResult.raised PyError.typeError, 10) ∧
    iterative_generate_prompts initCallsW judgeCallsCorrThenFail 10 =
      (PyResult.raised PyError.typeError, 10) := by
  refine ⟨?_, ?_⟩ <;> rfl

/-! Theorems for the claims about `generate_dataset`. -/

lemma accumulateAux_aborted_lt (pipe : Nat → SubResult) (target batchSize : Nat) :
    ∀ (fuel callIdx : Nat) (ps ins : List String) (sizes : List Nat),
      (accumulateAux pipe target batchSize fuel callIdx ps ins sizes).aborted = true →
      (accumulateAux pipe target batchSize fuel callIdx ps ins sizes).prompt_texts.length < target := by
  intro fuel
  induction fuel with
  | zero => intro callIdx ps ins sizes h; simp [accumulateAux] at h
  | succ fuel ih =>
    intro callIdx ps ins sizes h
    by_cases hlt : ps.length < target
    · by_cases hok : subBatchOk (pipe callIdx) (min batchSize (target - ps.length)) = true
      · simp only [accumulateAux, hlt, if_pos, hok, if_true] at h ⊢
        exact ih _ _ _ _ h
      · simp only [Bool.not_eq_true] at hok
        simp only [accumulateAux, hlt, if_pos, hok, Bool.false_eq_true, if_false]
    · simp only [accumulateAux, hlt, if_neg, if_false] at h
      exact absurd h Bool.false_ne_true

/-- Claim C4: if the accumulation loop for a combination aborted
(a sub-batch call failed or returned wrong-length sequences, taking the
`break` on line 254), nothing is persisted for the combination: the
record list and the on-disk file are exactly as before, and the
accumulated count is short of the target. -/
theorem C4_abort_no_persist (pipe : Nat → SubResult) (key : Combo) (st : LangState)
    (h : (accumulate pipe NUM_PROMPTS_PER_COMBO BATCH_SIZE).aborted = true) :
    (processCombo pipe key st).lang_prompts = st.lang_prompts ∧
    (processCombo pipe key st).file = st.file ∧
    (accumulate pipe NUM_PROMPTS_PER_COMBO BATCH_SIZE).prompt_texts.length <
      NUM_PROMPTS_PER_COMBO := by
  have hlen : (accumulate pipe NUM_PROMPTS_PER_COMBO BATCH_SIZE).prompt_texts.length <
      NUM_PROMPTS_PER_COMBO :=
    accumulateAux_aborted_lt pipe NUM_PROMPTS_PER_COMBO BATCH_SIZE _ _ _ _ _ h
  have hne : ((accumulate pipe NUM_PROMPTS_PER_COMBO BATCH_SIZE).prompt_texts.length ==
      NUM_PROMPTS_PER_COMBO) = false := by
    simp only [beq_eq_false_iff_ne, ne_eq]
    omega
  refine ⟨?_, ?_, hlen⟩ <;> simp [processCombo, hne]

/-- Witness fixture: a pipeline whose every sub-batch call fails. -/
def pipeFailW : Nat → SubResult := fun _ => (none, none)

/-- Witness fixture: a combination key. -/
def keyW : Combo :=
  ("English", "Headline/Title", 2, "Digital Screens", "Misspelled",
   "Complex Background", "Uniform Font and Style")

theorem C4_abort_no_persist_witness :
    (processCombo pipeFailW keyW ⟨[], none, 0⟩).lang_prompts = [] ∧
    (processCombo pipeFailW keyW ⟨[], none, 0⟩).file = none ∧
    (accumulate pipeFailW NUM_PROMPTS_PER_COMBO BATCH_SIZE).prompt_texts.length <
      NUM_PROMPTS_PER_COMBO :=
  C4_abort_no_persist pipeFailW keyW ⟨[], none, 0⟩ (by decide)

lemma comboFold_all_skipped (pipe : Combo → Nat → SubResult) (processed : List Combo)
    (lang : String) :
    ∀ (cs : List ComboSrc) (st : LangState),
      (∀ c ∈ cs, comboOf lang c ∈ processed) → comboFold pipe processed lang cs st = st := by
  intro cs
  induction cs with
  | nil => intro st _; rfl
  | cons c rest ih =>
    intro st h
    have hc : comboOf lang c ∈ processed := h c (List.mem_cons_self c rest)
    simp only [comboFold, hc, if_pos]
    exact ih st (fun c' hc' => h c' (List.mem_cons_of_mem c hc'))

/-- Claim C5: when every combination key of the grid is already present
among the loaded records, the generation loop for that language issues
zero pipeline invocations (hence zero generation or judge API calls),
appends nothing, and leaves the file unchanged. -/
theorem C5_idempotent (pipe : Combo → Nat → SubResult) (lang : String)
    (loaded : List PromptRecord) (file : Option (List PromptRecord))
    (h : ∀ c ∈ combinations, comboOf lang c ∈ processedCombos loaded) :
    runLanguage pipe lang loaded file = ⟨loaded, file, 0⟩ :=
  comboFold_all_skipped pipe (processedCombos loaded) lang combinations ⟨loaded, file, 0⟩ h

lemma comboKey_mkRecord (k : Combo) (ps ins : List String) :
    comboKey (mkRecord k ps ins) = k := rfl

/-- Witness fixture: a file that already contains a record for every
combination of the grid. -/
def loadedW : List PromptRecord :=
  combinations.map (fun c => mkRecord (comboOf "English" c) [] [])

theorem C5_idempotent_witness :
    runLanguage (fun _ _ => (none, none)) "English" loadedW (some loadedW) =
      ⟨loadedW, some loadedW, 0⟩ := by
  apply C5_idempotent
  intro c hc
  have hm : comboOf "English" c ∈ combinations.map (fun c' => comboOf "English" c') :=
    List.mem_map_of_mem _ hc
  simpa [processedCombos, loadedW, List.map_map, Function.comp, comboKey_mkRecord] using hm

lemma accumulateAux_sizes_prefix (pipe : Nat → SubResult) (target batchSize : Nat) :
    ∀ (fuel callIdx : Nat) (ps ins : List String) (sizes : List Nat),
      ∃ t, (accumulateAux pipe target batchSize fuel callIdx ps ins sizes).sizes = sizes ++ t := by
  intro fuel
  induction fuel with
  | zero => intro callIdx ps ins sizes; exact ⟨[], by simp [accumulateAux]⟩
  | succ fuel ih =>
    intro callIdx ps ins sizes
    by_cases hlt : ps.length < target
    · by_cases hok : subBatchOk (pipe callIdx) (min batchSize (target - ps.length)) = true
      · simp only [accumulateAux, hlt, if_pos, hok, if_true]
        obtain ⟨t, ht⟩ := ih (callIdx + 1) (ps ++ (pipe callIdx).1.getD [])
          (ins ++ (pipe callIdx).2.getD [])
          (sizes ++ [min batchSize (target - ps.length)])
        exact ⟨min batchSize (target - ps.length) :: t, by
          rw [ht, List.append_assoc, List.singleton_append]⟩
      · simp only [Bool.not_eq_true] at hok
        simp only [accumulateAux, hlt, if_pos, hok, Bool.false_eq_true, if_false]
        exact ⟨[min batchSize (target - ps.length)], rfl⟩
    · simp only [accumulateAux, hlt, if_neg, if_false]
      exact ⟨[], by simp⟩

/-- Witness fixture: a pipeline returning exactly the sizes the
accumulator requests for a target of 45 with batch size 20. -/
def pipe45 : Nat → SubResult :=
  fun k => if k < 2 then (some (List.replicate 20 "p"), some (List.replicate 20 "i"))
           else (some (List.replicate 5 "p"), some (List.replicate 5 "i"))

/-- Claim C6: whenever the accumulation loop enters its body with
`collectedSoFar < N` it issues a sub-batch request of size
`min(B, N - collectedSoFar)`; for `N = 45`, `B = 20` exactly 3 requests
are issued, of sizes `[20, 20, 5]`, after which the loop stops with 45
collected items. -/
theorem C6_subbatch_sizes :
    (∀ (pipe : Nat → SubResult) (target batchSize fuel callIdx : Nat)
      (ps ins : List String) (sizes : List Nat), ps.length < target →
      ∃ rest, (accumulateAux pipe target batchSize (fuel + 1) callIdx ps ins sizes).sizes =
        sizes ++ (min batchSize (target - ps.length)) :: rest) ∧
    (accumulate pipe45 45 20).sizes = [20, 20, 5] ∧
    (accumulate pipe45 45 20).prompt_texts.length = 45 ∧
    (accumulate pipe45 45 20).aborted = false := by
  refine ⟨?_, by decide, by decide, by decide⟩
  intro pipe target batchSize fuel callIdx ps ins sizes hlt
  by_cases hok : subBatchOk (pipe callIdx) (min batchSize (target - ps.length)) = true
  · simp only [accumulateAux, hlt, if_pos, hok, if_true]
    obtain ⟨t, ht⟩ := accumulateAux_sizes_prefix pipe target batchSize fuel (callIdx + 1)
      (ps ++ (pipe callIdx).1.getD []) (ins ++ (pipe callIdx).2.getD [])
      (sizes ++ [min batchSize (target - ps.length)])
    exact ⟨t, by rw [ht, List.append_assoc, List.singleton_append]⟩
  · simp only [Bool.not_eq_true] at hok
    simp only [accumulateAux, hlt, if_pos, hok, Bool.false_eq_true, if_false]
    exact ⟨[], rfl⟩

theorem C6_subbatch_sizes_witness :
    ∃ rest, (accumulateAux pipe45 45 20 (45 + 1) 0 ([] : List String) ([] : List String)
        ([] : List Nat)).sizes =
      ([] : List Nat) ++ (min 20 (45 - ([] : List String).length)) :: rest :=
  C6_subbatch_sizes.1 pipe45 45 20 45 0 [] [] [] (by decide)

lemma accumulateAux_len_eq (pipe : Nat → SubResult) (target batchSize : Nat) :
    ∀ (fuel callIdx : Nat) (ps ins : List String) (sizes : List Nat),
      ps.length = ins.length →
      (accumulateAux pipe target batchSize fuel callIdx ps ins sizes).prompt_texts.length =
        (accumulateAux pipe target batchSize fuel callIdx ps ins sizes).inscr.length := by
  intro fuel
  induction fuel with
  | zero => intro callIdx ps ins sizes h; simpa [accumulateAux] using h
  | succ fuel ih =>
    intro callIdx ps ins sizes h
    by_cases hlt : ps.length < target
    · by_cases hok : subBatchOk (pipe callIdx) (min batchSize (target - ps.length)) = true
      · simp only [accumulateAux, hlt, if_pos, hok, if_true]
        apply ih
        have hlens : ((pipe callIdx).1.getD []).length = min batchSize (target - ps.length) ∧
            ((pipe callIdx).2.getD []).length = min batchSize (target - ps.length) := by
          simp only [subBatchOk, Bool.and_eq_true, beq_iff_eq] at hok
          exact ⟨hok.1.2, hok.2⟩
        simp [hlens.1, hlens.2, h]
      · simp only [Bool.not_eq_true] at hok
        simp only [accumulateAux, hlt, if_pos, hok, Bool.false_eq_true, if_false]
        exact h
    · simp only [accumulateAux, hlt, if_neg, if_false]
      exact h

/-- Claim C9: every record appended by the per-combination processing
satisfies `len(prompt_text) = len(inscriptions) = NUM_PROMPTS_PER_COMBO`
(150, the configured per-combination total): any record of the
resulting list either was already present or has both parallel lists of
exactly the configured total length. -/
theorem C9_record_lengths (pipe : Nat → SubResult) (key : Combo) (st : LangState)
    (r : PromptRecord) (hr : r ∈ (processCombo pipe key st).lang_prompts) :
    r ∈ st.lang_prompts ∨
      (r.prompt_text.length = NUM_PROMPTS_PER_COMBO ∧
       r.inscriptions.length = NUM_PROMPTS_PER_COMBO) := by
  by_cases hlen : ((accumulate pipe NUM_PROMPTS_PER_COMBO BATCH_SIZE).prompt_texts.length ==
      NUM_PROMPTS_PER_COMBO) = true
  · have hr' : r ∈ st.lang_prompts ++
        [mkRecord key (accumulate pipe NUM_PROMPTS_PER_COMBO BATCH_SIZE).prompt_texts
          (accumulate pipe NUM_PROMPTS_PER_COMBO BATCH_SIZE).inscr] := by
      simpa [processCombo, hlen] using hr
    rcases List.mem_append.mp hr' with hmem | hmem
    · exact Or.inl hmem
    · refine Or.inr ?_
      have heq : r = mkRecord key (accumulate pipe NUM_PROMPTS_PER_COMBO BATCH_SIZE).prompt_texts
          (accumulate pipe NUM_PROMPTS_PER_COMBO BATCH_SIZE).inscr := by
        simpa using hmem
      have hlen' : (accumulate pipe NUM_PROMPTS_PER_COMBO BATCH_SIZE).prompt_texts.length =
          NUM_PROMPTS_PER_COMBO := by
        simpa using hlen
      have hae : (accumulate pipe NUM_PROMPTS_PER_COMBO BATCH_SIZE).prompt_texts.length =
          (accumulate pipe NUM_PROMPTS_PER_COMBO BATCH_SIZE).inscr.length :=
        accumulateAux_len_eq pipe NUM_PROMPTS_PER_COMBO BATCH_SIZE
          (NUM_PROMPTS_PER_COMBO + 1) 0 [] [] [] rfl
      have hins : (accumulate pipe NUM_PROMPTS_PER_COMBO BATCH_SIZE).inscr.length =
          NUM_PROMPTS_PER_COMBO := by
        rw [← hae]
        exact hlen'
      rw [heq]
      exact ⟨hlen', hins⟩
  · have hr' : r ∈ st.lang_prompts := by
      simpa [processCombo, hlen] using hr
    exact Or.inl hr'

/-- Witness fixture: a pipeline returning exactly the sizes requested
for the real target of 150 with batch size 20 (seven sub-batches of 20,
then one of 10). -/
def pipeGood150 : Nat → SubResult :=
  fun k => if k < 7 then (some (List.replicate 20 "p"), some (List.replicate 20 "i"))
           else (some (List.replicate 10 "p"), some (List.replicate 10 "i"))

/-- Witness fixture: the record built from a full accumulation. -/
def recW : PromptRecord := mkRecord keyW (List.replicate 150 "p") (List.replicate 150 "i")

set_option maxRecDepth 10000 in
theorem C9_record_lengths_witness :
    recW ∈ ([] : List PromptRecord) ∨
      (recW.prompt_text.length = NUM_PROMPTS_PER_COMBO ∧
       recW.inscriptions.length = NUM_PROMPTS_PER_COMBO) :=
  C9_record_lengths pipeGood150 keyW ⟨[], none, 0⟩ recW (by decide)

end BTP
